import Mathlib

/-!
Shallow embedding of the message-routing and prompt-construction logic of the
Maiya chat application (a React chat UI with serverless API routes), together
with proofs of its specified properties.

Modelling conventions:
* JavaScript strings are modelled as `List Char` (`Str`); `toLowerCase` and
  `trim` are modelled at the ASCII level (the keywords and trigger phrases in
  the source are all ASCII).
* Network calls (`fetch`, the OpenAI SDK) and the external database client are
  replaced by explicit oracle parameters recording whether each call succeeds
  and what data it returns; handlers become total functions from the request
  and the oracle to a response value.
* The database `upsert`/`select` operations called by the session store are
  modelled as an association list with key-replacing insert (last writer wins),
  the documented behaviour of the external service.
-/

set_option autoImplicit false
set_option maxRecDepth 65536

namespace Maiya

/-- Characters of a JavaScript string, in order. -/
abbrev Str := List Char

/-- Model of `String.prototype.toLowerCase` (ASCII level). -/
def lowerStr (s : Str) : Str := s.map Char.toLower

/-- `isPrefixL needle hay` is true when `hay` starts with `needle`. -/
def isPrefixL : Str → Str → Bool
  | [], _ => true
  | _ :: _, [] => false
  | a :: as, b :: bs => a == b && isPrefixL as bs

/-- True when `needle` occurs starting at some position of the second argument. -/
def includesFrom (needle : Str) : Str → Bool
  | [] => isPrefixL needle []
  | c :: rest => isPrefixL needle (c :: rest) || includesFrom needle rest

/-- Model of `hay.includes(needle)` from JavaScript. -/
def strIncludes (hay needle : Str) : Bool := includesFrom needle hay

/-- ASCII whitespace, the model of the character class trimmed by `trim`. -/
def isWS (c : Char) : Bool := c == ' ' || c == '\t' || c == '\n' || c == '\r'

/-- Model of `String.prototype.trim`: drop whitespace from both ends. -/
def trimL (s : Str) : Str := ((s.dropWhile isWS).reverse.dropWhile isWS).reverse

/-- Model of `s.split(" ")` from JavaScript: split at every single space,
keeping empty segments; the empty string yields one empty segment. -/
def splitOnSpace : Str → List Str
  | [] => [[]]
  | c :: rest =>
    let r := splitOnSpace rest
    if c == ' ' then [] :: r
    else
      match r with
      | [] => [[c]]
      | w :: ws => (c :: w) :: ws

/-! ### `src/app/api/generate-image/route.ts`: pure helpers -/

/-- The `layoutKeywords` array of `src/app/api/generate-image/route.ts`:
keywords that make the route skip AI art and answer with the fallback. -/
def layoutKeywords : List Str :=
  (["infographic", "marketing", "poster", "layout", "checklist",
    "steps", "template", "guide", "tutorial", "process", "workflow", "diagram",
    "chart", "graph", "comparison", "table", "list", "bullet", "point", "item",
    "section", "part", "chapter", "heading", "title", "subtitle", "caption",
    "dashboard", "report", "summary", "overview", "outline", "structure", "format",
    "style", "theme", "font", "typography", "content"]).map String.toList

/-- `needsVisualFallback` of `src/app/api/generate-image/route.ts`: the prompt
is lowercased and each layout keyword is tested for substring membership. -/
def needsVisualFallback (prompt : Str) : Bool :=
  let lower := lowerStr prompt
  layoutKeywords.any fun keyword => strIncludes lower keyword

/-- The style-selection cascade inside `buildStyledPrompt` of
`src/app/api/generate-image/route.ts`: six keyword groups tried in order on the
lowercased prompt, defaulting to photorealistic. -/
def visualStyle (userPrompt : Str) : Str :=
  if strIncludes (lowerStr userPrompt) "cartoon".toList ||
      strIncludes (lowerStr userPrompt) "anime".toList then
    "anime/cartoon style".toList
  else if strIncludes (lowerStr userPrompt) "3d".toList ||
      strIncludes (lowerStr userPrompt) "render".toList then
    "3D render".toList
  else if strIncludes (lowerStr userPrompt) "painting".toList ||
      strIncludes (lowerStr userPrompt) "artistic".toList then
    "digital painting".toList
  else if strIncludes (lowerStr userPrompt) "kawaii".toList ||
      strIncludes (lowerStr userPrompt) "cute".toList then
    "kawaii/cute style".toList
  else if strIncludes (lowerStr userPrompt) "fantasy".toList ||
      strIncludes (lowerStr userPrompt) "magical".toList then
    "fantasy art".toList
  else if strIncludes (lowerStr userPrompt) "product".toList ||
      strIncludes (lowerStr userPrompt) "mockup".toList then
    "product mockup".toList
  else
    "photorealistic".toList

/-- `buildStyledPrompt` of `src/app/api/generate-image/route.ts`: the original
prompt and the selected style interpolated into the fixed quality template. -/
def buildStyledPrompt (userPrompt : Str) : Str :=
  "Create a highly aesthetic, ultra-detailed image of: ".toList ++ userPrompt ++
    ". Visual Style: Use a ".toList ++ visualStyle userPrompt ++
    (" approach. Focus on sharp details, smooth lighting, and realistic textures. " ++
     "Pixar/Disney-level rendering or studio-quality photography vibe. Background " ++
     "should be clean or complementary. No text or UI unless specifically requested. " ++
     "Avoid distortion, blurriness, or fake letters. Prioritize clean layout, clear " ++
     "lighting, smooth composition, and rich detail. The image should be creative, " ++
     "beautiful, and ready to use for content, branding, or visual storytelling.").toList

/-! ### `src/app/api/generate-image/route.ts`: the `POST` handler -/

/-- The `prompt` field as extracted from the parsed JSON request body. -/
inductive PromptBody where
  | missing
  | nonString
  | str (s : Str)
deriving DecidableEq

/-- Oracle for the one outbound call of the image route: whether the fetch to
the image provider returns a 2xx response, and the `data.data[0].url` field of
its JSON body when it does (`none` models a missing URL). -/
structure ImageOracle where
  providerOk : Bool
  imageUrl : Option Str
deriving DecidableEq

/-- The observable outcome of the image route: HTTP status, the JSON body
fields it sets, plus instrumentation recording whether the provider was
called and with which styled prompt. -/
structure ImageRouteResult where
  status : Nat
  fallback : Bool
  message : Option Str
  imageUrl : Option Str
  errorMsg : Option Str
  providerCalled : Bool
  styledPrompt : Option Str
deriving DecidableEq

/-- Static fallback message of the image route. -/
def imageFallbackMsg : Str :=
  "Babe, this one works better as a layout or HTML design. Want me to make a styled mockup or infographic instead? 💻✨".toList

/-- Helper: a JSON error response of the image route. -/
def imageError (st : Nat) (msg : Str) : ImageRouteResult :=
  { status := st, fallback := false, message := none, imageUrl := none,
    errorMsg := some msg, providerCalled := false, styledPrompt := none }

/-- `POST` of `src/app/api/generate-image/route.ts`. `hasKey` models whether
`OPENAI_API_KEY` is configured; the body is assumed to have parsed (a parse
failure lands in the same catch-all 500 as a provider failure). -/
def generateImagePost (hasKey : Bool) (body : PromptBody) (o : ImageOracle) :
    ImageRouteResult :=
  if !hasKey then
    imageError 500 "OpenAI API key is not configured".toList
  else
    match body with
    | .missing => imageError 400 "Prompt must be a string with at least 5 characters".toList
    | .nonString => imageError 400 "Prompt must be a string with at least 5 characters".toList
    | .str prompt =>
      if prompt.isEmpty || (trimL prompt).length < 5 then
        imageError 400 "Prompt must be a string with at least 5 characters".toList
      else if needsVisualFallback prompt then
        { status := 200, fallback := true, message := some imageFallbackMsg,
          imageUrl := none, errorMsg := none, providerCalled := false,
          styledPrompt := none }
      else
        let finalPrompt := buildStyledPrompt prompt
        if !o.providerOk then
          { imageError 500 "Image generation failed".toList with
            providerCalled := true, styledPrompt := some finalPrompt }
        else
          match o.imageUrl with
          | none =>
            { imageError 500 "Image generation failed".toList with
              providerCalled := true, styledPrompt := some finalPrompt }
          | some url =>
            { status := 200, fallback := false, message := none,
              imageUrl := some url, errorMsg := none, providerCalled := true,
              styledPrompt := some finalPrompt }

/-! ### The chat route (`POST /api/maiyabot`, `src/unnamed/part_001`) -/

deriving instance DecidableEq for Except

/-- Oracle for the chat route: whether `req.json()` parses, the outcome of the
chat-completion call, the outcome of the summary call. `Except Unit` models a
call that either throws (provider non-2xx, network error, malformed response)
or yields text. The unchecked summary upsert resolves without throwing and
does not influence control flow, so it has no oracle field. -/
structure ChatOracle where
  parseOk : Bool
  chatReply : Except Unit Str
  summary : Except Unit Str
deriving DecidableEq

/-- Observable outcome of the chat route: HTTP status and the `reply` field. -/
structure ChatRouteResult where
  status : Nat
  reply : Str
deriving DecidableEq

/-- The static apology of the chat route's catch-all handler. -/
def chatApology : Str :=
  "Oops! Something went wrong on my end 💔 Try again in a sec?".toList

/-- `POST` of the chat route (`src/unnamed/part_001`): everything inside the
`try` that throws is converted by the catch-all into a 500 response whose body
carries the static apology as `reply`. -/
def maiyabotPost (o : ChatOracle) : ChatRouteResult :=
  if !o.parseOk then
    { status := 500, reply := chatApology }
  else
    match o.chatReply with
    | .error _ => { status := 500, reply := chatApology }
    | .ok replyContent =>
      match o.summary with
      | .error _ => { status := 500, reply := chatApology }
      | .ok _ => { status := 200, reply := replyContent }

/-! ### Chat messages and the client (`src/app/page.tsx`) -/

/-- The `role` field of a `Message`. -/
inductive Role where
  | user
  | assistant
deriving DecidableEq

/-- The `Message` type of `src/app/page.tsx`. -/
structure Msg where
  role : Role
  content : Str
deriving DecidableEq

/-- A user message literal. -/
def userMsg (content : Str) : Msg := { role := Role.user, content := content }

/-- An assistant message literal. -/
def botMsg (content : Str) : Msg := { role := Role.assistant, content := content }

/-- The serverless endpoints the two `sendMessage` variants can fetch. -/
inductive Endpoint where
  | generateImage
  | generateVisualCode
  | maiyabot
deriving DecidableEq

/-- The parts of the client component's state that `sendMessage` reads and
writes: the message list and the `imagePromptRef` pending-image flag. -/
structure ClientState where
  messages : List Msg
  pending : Bool
deriving DecidableEq

/-- Oracle for the single fetch of `sendMessage`: `resOk` is `res.ok` (a
network failure that throws is modelled as `resOk = false`, landing in the
same catch), and `imageUrl`/`reply` are the fields of the parsed JSON. -/
structure NetOracle where
  resOk : Bool
  imageUrl : Str
  reply : Str
deriving DecidableEq

/-- Everything observable about one `sendMessage` run: the final state and, in
order, the message lists written by `saveHistory` and the endpoints fetched. -/
structure SendOutcome where
  state : ClientState
  saves : List (List Msg)
  calls : List Endpoint
deriving DecidableEq

/-- The `invalidKeywords` array of `sendMessage`. -/
def invalidKeywords : List Str :=
  (["dog", "cat", "person", "people", "human"]).map String.toList

/-- The static clarifying question emitted on the "generate image" trigger. -/
def clarifyMsg : Str :=
  "What kind of image would you like me to create for you, babe? 🎨✨".toList

/-- The static redirect message suggesting stock-photo sites. -/
def redirectMsg : Str :=
  ("I can't generate images of specific things like dogs or cats, but I can help you find cute pics online! 🐶💖<br />" ++
   "Try sites like <a href=\"https://unsplash.com/s/photos/cute-dog\" target=\"_blank\" class=\"underline text-pink-500\">Unsplash</a> " ++
   "or <a href=\"https://www.pexels.com/search/cute%20dog/\" target=\"_blank\" class=\"underline text-pink-500\">Pexels</a> for royalty-free options! ✨📸").toList

/-- The static apology appended by the client's catch block. -/
def glitchMsg : Str :=
  "Oops! I hit a glitch 💔 Can you try again, babe?".toList

/-- The assistant message content built from a generated image URL. -/
def imgTag (url : Str) : Str :=
  "<img src=\"".toList ++ url ++
    "\" alt=\"Generated Image\" class=\"rounded-md mt-2 max-w-xs shadow-lg\" />".toList

/-- The trigger test of `sendMessage`: the content, lowercased then trimmed,
compared with the trigger phrase. -/
def isTrigger (content : Str) : Bool :=
  trimL (lowerStr content) == "generate image".toList

/-- The image-description heuristic of `sendMessage` (the part of
`isImageDescription` beyond the pending flag): length above 10, more than two
space-separated segments, and no invalid-subject keyword in the lowercased
content. -/
def passesImageHeuristic (content : Str) : Bool :=
  decide (content.length > 10) && decide ((splitOnSpace content).length > 2) &&
    !(invalidKeywords.any fun kw => strIncludes (lowerStr content) kw)

/-- `sendMessage` of `src/app/page.tsx` as a pure step function on the client
state. The early return on whitespace-only content performs no writes; the
trigger branch appends the clarifying question and sets the pending flag; all
other branches clear the flag, whether the fetch succeeds or fails. -/
def sendMessage (st : ClientState) (content : Str) (o : NetOracle) : SendOutcome :=
  if (trimL content).isEmpty then
    { state := st, saves := [], calls := [] }
  else
    let updatedMessages := st.messages ++ [userMsg content]
    if isTrigger content then
      let final := updatedMessages ++ [botMsg clarifyMsg]
      { state := { messages := final, pending := true },
        saves := [updatedMessages, final], calls := [] }
    else
      let lastWasImagePrompt := st.pending
      let isImageDescription := lastWasImagePrompt && passesImageHeuristic content
      let endpoint := if isImageDescription then Endpoint.generateImage else Endpoint.maiyabot
      if !o.resOk then
        let final := updatedMessages ++ [botMsg glitchMsg]
        { state := { messages := final, pending := false },
          saves := [updatedMessages, final], calls := [endpoint] }
      else if lastWasImagePrompt && !isImageDescription then
        let final := updatedMessages ++ [botMsg redirectMsg]
        { state := { messages := final, pending := false },
          saves := [updatedMessages, final], calls := [endpoint] }
      else
        let assistantMessage : Msg :=
          if isImageDescription then botMsg (imgTag o.imageUrl) else botMsg o.reply
        let final := updatedMessages ++ [assistantMessage]
        { state := { messages := final, pending := false },
          saves := [updatedMessages, final], calls := [endpoint] }

/-! ### The client variant of `src/unnamed/part_002` -/

/-- The keyword list gating the `/api/generate-visual-code` route in
`src/unnamed/part_002`. -/
def visualCodeKeywords : List Str :=
  (["infographic", "ebook", "layout", "dashboard", "steps"]).map String.toList

/-- Oracle for the single fetch of the `src/unnamed/part_002` `sendMessage`:
`res.ok` plus the fields of the parsed JSON body that variant reads. -/
structure NetOracleV2 where
  resOk : Bool
  html : Str
  fallback : Bool
  message : Str
  imageUrl : Str
  reply : Str
deriving DecidableEq

/-- `sendMessage` of `src/unnamed/part_002` as a pure step function: guarded
by the `isSendingMessage` busy flag and by authentication, triggered by
substring containment of "generate image", and with no invalid-subject or
length heuristic — while the pending flag is set, the fetch always goes to an
image route (`generate-visual-code` when a visual-code keyword occurs,
`generate-image` otherwise). Message timestamps are omitted. In the catch
branch the history write uses the pre-send message list, as in the source's
`[...messages, errorMessage]`. -/
def sendMessageV2 (busy : Bool) (user : Option Nat) (st : ClientState)
    (content : Str) (o : NetOracleV2) : SendOutcome :=
  if busy then { state := st, saves := [], calls := [] }
  else if (trimL content).isEmpty then { state := st, saves := [], calls := [] }
  else
    match user with
    | none => { state := st, saves := [], calls := [] }
    | some _ =>
      let newMessages := st.messages ++ [userMsg content]
      if strIncludes (lowerStr content) "generate image".toList then
        let updatedMessages := newMessages ++ [botMsg clarifyMsg]
        { state := { messages := updatedMessages, pending := true },
          saves := [newMessages, updatedMessages], calls := [] }
      else
        let isImageRequest := st.pending
        let shouldUseVisualCode :=
          visualCodeKeywords.any fun w => strIncludes (lowerStr content) w
        let endpoint :=
          if isImageRequest then
            if shouldUseVisualCode then Endpoint.generateVisualCode
            else Endpoint.generateImage
          else Endpoint.maiyabot
        if !o.resOk then
          { state := { messages := newMessages ++ [botMsg glitchMsg], pending := false },
            saves := [newMessages, st.messages ++ [botMsg glitchMsg]],
            calls := [endpoint] }
        else
          let assistantMessage :=
            if isImageRequest then
              if shouldUseVisualCode then botMsg o.html
              else if o.fallback then botMsg o.message
              else botMsg (imgTag o.imageUrl)
            else botMsg o.reply
          let updatedMessages := newMessages ++ [assistantMessage]
          { state := { messages := updatedMessages, pending := false },
            saves := [newMessages, updatedMessages], calls := [endpoint] }

/-! ### The session store (`saveHistory` / `loadHistory`)

The database client itself is an external collaborator; its `upsert` (insert
or replace the row with the given key) and `select ... single` are modelled on
an association list keyed by the caller's key. -/

/-- A chats table keyed by `κ`, each row holding a message list. -/
abbrev ChatStore (κ : Type) := List (κ × List Msg)

/-- Modelled `upsert` of the external database: replace the row with this key
when present (table keys are unique), insert otherwise. -/
def upsertChat {κ : Type} [DecidableEq κ] : ChatStore κ → κ → List Msg → ChatStore κ
  | [], k, msgs => [(k, msgs)]
  | r :: rs, k, msgs => if r.1 = k then (k, msgs) :: rs else r :: upsertChat rs k msgs

/-- Modelled `select ... single`: the messages of the row with this key. -/
def selectChat {κ : Type} [DecidableEq κ] : ChatStore κ → κ → Option (List Msg)
  | [], _ => none
  | r :: rs, k => if r.1 = k then some r.2 else selectChat rs k

/-- `saveHistory` of `src/app/page.tsx`: an unconditional upsert of the whole
message list under the date key. -/
def saveHistoryV1 (st : ChatStore Str) (todayKey : Str) (msgs : List Msg) : ChatStore Str :=
  upsertChat st todayKey msgs

/-- `loadHistory` of `src/app/page.tsx`: `setMessages(data?.messages || [])`. -/
def loadHistoryV1 (st : ChatStore Str) (key : Str) : List Msg :=
  (selectChat st key).getD []

/-- `saveHistory` of `src/unnamed/part_002`: returns without writing when the
message list is empty (`if (!msgs?.length) return`) or no user is
authenticated; otherwise upserts under the (user id, date key) pair. -/
def saveHistoryV2 (st : ChatStore (Nat × Str)) (user : Option Nat) (todayKey : Str)
    (msgs : List Msg) : ChatStore (Nat × Str) :=
  if msgs.isEmpty then st
  else
    match user with
    | none => st
    | some uid => upsertChat st (uid, todayKey) msgs

/-- `loadHistory` of `src/unnamed/part_002` on the success path: the stored
messages for the (user id, date key) pair, empty when the row's field is null. -/
def loadHistoryV2 (st : ChatStore (Nat × Str)) (uid : Nat) (key : Str) : List Msg :=
  (selectChat st (uid, key)).getD []

/-! ### Helper lemmas -/

/-- Lowercasing fixes whitespace characters. -/
theorem toLower_of_isWS {c : Char} (h : isWS c = true) : c.toLower = c := by
  unfold isWS at h
  simp only [Bool.or_eq_true, beq_iff_eq] at h
  rcases h with ((h | h) | h) | h <;> subst h <;> decide

/-- `trimL` yields the empty string exactly on all-whitespace input. -/
theorem trimL_eq_nil_iff (s : Str) : trimL s = [] ↔ ∀ c ∈ s, isWS c = true := by
  unfold trimL
  rw [List.reverse_eq_nil_iff, List.dropWhile_eq_nil_iff]
  constructor
  · intro h c hc
    have hsplit := @List.takeWhile_append_dropWhile _ isWS s
    rw [← hsplit] at hc
    rcases List.mem_append.mp hc with hc | hc
    · exact List.mem_takeWhile_imp hc
    · exact h c (List.mem_reverse.mpr hc)
  · intro h c hc
    exact h c (List.dropWhile_sublist isWS |>.subset (List.mem_reverse.mp hc))

/-- The trigger phrase comparison can only succeed on content that is not
whitespace-only. -/
theorem isTrigger_nonempty {content : Str} (h : isTrigger content = true) :
    (trimL content).isEmpty = false := by
  cases hnil : (trimL content).isEmpty with
  | false => rfl
  | true =>
    exfalso
    have hAll : ∀ c ∈ content, isWS c = true :=
      (trimL_eq_nil_iff content).mp (List.isEmpty_iff.mp hnil)
    have hAllLower : ∀ c ∈ lowerStr content, isWS c = true := by
      intro c hc
      rcases List.mem_map.mp hc with ⟨a, ha, rfl⟩
      rw [toLower_of_isWS (hAll a ha)]
      exact hAll a ha
    have hLowNil : trimL (lowerStr content) = [] := (trimL_eq_nil_iff _).mpr hAllLower
    rw [isTrigger, hLowNil] at h
    exact absurd h (by decide)

/-- Prefix matching is preserved by character-wise lowercasing. -/
theorem isPrefixL_lower {needle hay : Str} (h : isPrefixL needle hay = true) :
    isPrefixL (lowerStr needle) (lowerStr hay) = true := by
  induction needle generalizing hay with
  | nil => rfl
  | cons a as ih =>
    cases hay with
    | nil => exact absurd h (by simp [isPrefixL])
    | cons b bs =>
      rw [isPrefixL, Bool.and_eq_true] at h
      obtain ⟨hab, htail⟩ := h
      obtain rfl : a = b := beq_iff_eq.mp hab
      simpa [lowerStr, isPrefixL] using ih htail

/-- Substring occurrence is preserved by character-wise lowercasing. -/
theorem includesFrom_lower {needle hay : Str} (h : includesFrom needle hay = true) :
    includesFrom (lowerStr needle) (lowerStr hay) = true := by
  induction hay with
  | nil =>
    cases needle with
    | nil => rfl
    | cons a as => exact absurd h (by simp [includesFrom, isPrefixL])
  | cons c rest ih =>
    rw [includesFrom, Bool.or_eq_true] at h
    simp only [lowerStr, List.map_cons, includesFrom, Bool.or_eq_true]
    rcases h with h | h
    · exact Or.inl (isPrefixL_lower h)
    · exact Or.inr (ih h)

/-- A needle that lowercasing fixes still occurs after the haystack is
lowercased. -/
theorem strIncludes_lowerStr {s k : Str} (hk : lowerStr k = k)
    (h : strIncludes s k = true) : strIncludes (lowerStr s) k = true := by
  have hmap := includesFrom_lower h
  rwa [hk] at hmap

/-- Trimming never lengthens a string. -/
theorem trimL_length_le (s : Str) : (trimL s).length ≤ s.length := by
  unfold trimL
  calc ((s.dropWhile isWS).reverse.dropWhile isWS).reverse.length
      = ((s.dropWhile isWS).reverse.dropWhile isWS).length := List.length_reverse _
    _ ≤ (s.dropWhile isWS).reverse.length := (List.dropWhile_sublist _).length_le
    _ = (s.dropWhile isWS).length := List.length_reverse _
    _ ≤ s.length := (List.dropWhile_sublist _).length_le

/-- Reading back the key just upserted yields exactly the value written. -/
theorem selectChat_upsertChat {κ : Type} [DecidableEq κ] (st : ChatStore κ) (k : κ)
    (msgs : List Msg) : selectChat (upsertChat st k msgs) k = some msgs := by
  induction st with
  | nil => simp [upsertChat, selectChat]
  | cons r rs ih =>
    by_cases h : r.1 = k
    · simp [upsertChat, selectChat, h]
    · simp [upsertChat, selectChat, h, ih]

/-! ### Claim theorems -/

/-- C1: `needsVisualFallback prompt` is true exactly when the lowercased
prompt contains one of the fixed layout keywords as a substring, and false
when it contains none; as a Lean function it is deterministic and
side-effect free. -/
theorem needsVisualFallback_iff_keyword (p : Str) :
    needsVisualFallback p = true ↔
      ∃ k, k ∈ layoutKeywords ∧ strIncludes (lowerStr p) k = true := by
  unfold needsVisualFallback
  rw [List.any_eq_true]

/-- C1 witness: a prompt containing "infographic" is flagged. -/
theorem needsVisualFallback_iff_keyword_witness :
    needsVisualFallback "Make an infographic".toList = true :=
  (needsVisualFallback_iff_keyword ("Make an infographic".toList)).mpr
    ⟨"infographic".toList, by decide, by decide⟩

/-- C2 counterexample: the claim "the pending-image flag is cleared after
every processed user message" fails when the next user message is itself the
trigger phrase: processing "generate image" leaves the flag set. -/
theorem pending_not_cleared_on_trigger :
    (sendMessage { messages := [], pending := true } "generate image".toList
        { resOk := true, imageUrl := [], reply := [] }).state.pending = true := by
  decide

/-- C2 (amended): after processing any user message that is neither
whitespace-only nor the "generate image" trigger, the pending-image flag is
cleared, for every prior state and every fetch outcome (success or failure). -/
theorem pending_cleared_after_nontrigger (st : ClientState) (content : Str)
    (o : NetOracle) (hne : (trimL content).isEmpty = false)
    (htr : isTrigger content = false) :
    (sendMessage st content o).state.pending = false := by
  unfold sendMessage
  simp only [hne, htr, Bool.false_eq_true, if_false]
  split
  · rfl
  · split <;> rfl

/-- C2 witness: a concrete non-trigger message clears the flag even when the
fetch fails. -/
theorem pending_cleared_after_nontrigger_witness :
    (sendMessage { messages := [], pending := true } "hello there friend".toList
        { resOk := false, imageUrl := [], reply := [] }).state.pending = false :=
  pending_cleared_after_nontrigger _ _ _ (by decide) (by decide)

/-- C3: from the Idle state, a message equal (lowercased, trimmed) to
"generate image" appends exactly the static clarifying assistant message,
sets the pending flag (AwaitingImageDescription), and fetches no endpoint. -/
theorem trigger_enters_awaiting (st : ClientState) (content : Str) (o : NetOracle)
    (hidle : st.pending = false) (htr : isTrigger content = true) :
    sendMessage st content o =
      { state := { messages := st.messages ++ [userMsg content, botMsg clarifyMsg],
                   pending := true },
        saves := [st.messages ++ [userMsg content],
                  st.messages ++ [userMsg content, botMsg clarifyMsg]],
        calls := [] } := by
  have hne := isTrigger_nonempty htr
  unfold sendMessage
  simp [hne, htr]

/-- C3 witness: "Generate Image " from Idle. -/
theorem trigger_enters_awaiting_witness :
    sendMessage { messages := [], pending := false } "Generate Image ".toList
        { resOk := true, imageUrl := [], reply := [] } =
      { state := { messages := [userMsg "Generate Image ".toList, botMsg clarifyMsg],
                   pending := true },
        saves := [[userMsg "Generate Image ".toList],
                  [userMsg "Generate Image ".toList, botMsg clarifyMsg]],
        calls := [] } := by
  have h := trigger_enters_awaiting { messages := [], pending := false }
    "Generate Image ".toList { resOk := true, imageUrl := [], reply := [] }
    (by decide) (by decide)
  simpa using h

/-- C4 counterexample: the claim fails as stated. With the pending flag set
and next message "dog", when the one fetch the router makes fails (`!res.ok`
throws before the redirect branch), the appended assistant message is the
glitch apology, not the static stock-photo redirect. -/
theorem redirect_not_emitted_on_fetch_failure :
    (sendMessage { messages := [], pending := true } "dog".toList
        { resOk := false, imageUrl := [], reply := [] }).state.messages =
      [userMsg "dog".toList, botMsg glitchMsg] ∧
    botMsg redirectMsg ∉
      (sendMessage { messages := [], pending := true } "dog".toList
        { resOk := false, imageUrl := [], reply := [] }).state.messages := by
  decide

/-- C4 (amended): in the `src/app/page.tsx` router, a non-trigger message
that fails the image-description heuristic while an image description is
awaited always returns the session to Idle and never fetches the
image-generation endpoint (its one fetch goes to the chat route); it appends
exactly the static stock-photo redirect when that fetch succeeds, and the
static glitch apology instead when it fails. The `src/unnamed/part_002`
variant has no such heuristic: with the pending flag set it fetches the
image-generation endpoint even for the message "dog". -/
theorem invalid_description_routing (st : ClientState) (content : Str)
    (o : NetOracle) (hpend : st.pending = true)
    (hne : (trimL content).isEmpty = false) (htr : isTrigger content = false)
    (hinv : passesImageHeuristic content = false) :
    (sendMessage st content o).state.pending = false ∧
    Endpoint.generateImage ∉ (sendMessage st content o).calls ∧
    (o.resOk = true →
      sendMessage st content o =
        { state := { messages := st.messages ++ [userMsg content, botMsg redirectMsg],
                     pending := false },
          saves := [st.messages ++ [userMsg content],
                    st.messages ++ [userMsg content, botMsg redirectMsg]],
          calls := [Endpoint.maiyabot] }) ∧
    (o.resOk = false →
      (sendMessage st content o).state.messages =
        st.messages ++ [userMsg content, botMsg glitchMsg]) ∧
    (∀ pre : List Msg, ∀ uid : Nat, ∀ o2 : NetOracleV2,
      (sendMessageV2 false (some uid) { messages := pre, pending := true }
        "dog".toList o2).calls = [Endpoint.generateImage]) := by
  have hcalls : (sendMessage st content o).calls = [Endpoint.maiyabot] := by
    unfold sendMessage
    simp only [hne, htr, hpend, hinv, Bool.false_eq_true, if_false]
    split <;> rfl
  refine ⟨?_, ?_, ?_, ?_, ?_⟩
  · unfold sendMessage
    simp only [hne, htr, Bool.false_eq_true, if_false]
    split
    · rfl
    · split <;> rfl
  · rw [hcalls]
    simp
  · intro hok
    unfold sendMessage
    simp [hne, htr, hpend, hinv, hok]
  · intro hfail
    unfold sendMessage
    simp [hne, htr, hpend, hinv, hfail]
  · intro pre uid o2
    have h1 : (trimL "dog".toList).isEmpty = false := by decide
    have h2 : strIncludes (lowerStr "dog".toList) "generate image".toList = false := by
      decide
    have h3 : (visualCodeKeywords.any fun w =>
        strIncludes (lowerStr "dog".toList) w) = false := by decide
    unfold sendMessageV2
    simp only [h1, h2, h3, Bool.false_eq_true, if_false]
    split <;> rfl

/-- C4 witness: the message "dog" while awaiting an image description, with a
succeeding fetch. -/
theorem invalid_description_routing_witness :
    sendMessage { messages := [], pending := true } "dog".toList
        { resOk := true, imageUrl := [], reply := [] } =
      { state := { messages := [userMsg "dog".toList, botMsg redirectMsg],
                   pending := false },
        saves := [[userMsg "dog".toList],
                  [userMsg "dog".toList, botMsg redirectMsg]],
        calls := [Endpoint.maiyabot] } := by
  have h := invalid_description_routing { messages := [], pending := true }
    "dog".toList { resOk := true, imageUrl := [], reply := [] }
    (by decide) (by decide) (by decide) (by decide)
  simpa using h.2.2.1 rfl

/-- C5: `buildStyledPrompt` selects exactly one style through the fixed
priority cascade — the first keyword group occurring in the lowercased prompt
wins, defaulting to photorealistic — and on "a cute anime girl" (where both
the cartoon/anime and kawaii/cute groups match) the styled prompt uses
"anime/cartoon style" and not "kawaii/cute style". -/
theorem buildStyledPrompt_priority (p : Str) :
    ((strIncludes (lowerStr p) "cartoon".toList || strIncludes (lowerStr p) "anime".toList) = true →
      visualStyle p = "anime/cartoon style".toList) ∧
    ((strIncludes (lowerStr p) "cartoon".toList || strIncludes (lowerStr p) "anime".toList) = false →
      (strIncludes (lowerStr p) "3d".toList || strIncludes (lowerStr p) "render".toList) = true →
      visualStyle p = "3D render".toList) ∧
    ((strIncludes (lowerStr p) "cartoon".toList || strIncludes (lowerStr p) "anime".toList) = false →
      (strIncludes (lowerStr p) "3d".toList || strIncludes (lowerStr p) "render".toList) = false →
      (strIncludes (lowerStr p) "painting".toList || strIncludes (lowerStr p) "artistic".toList) = true →
      visualStyle p = "digital painting".toList) ∧
    ((strIncludes (lowerStr p) "cartoon".toList || strIncludes (lowerStr p) "anime".toList) = false →
      (strIncludes (lowerStr p) "3d".toList || strIncludes (lowerStr p) "render".toList) = false →
      (strIncludes (lowerStr p) "painting".toList || strIncludes (lowerStr p) "artistic".toList) = false →
      (strIncludes (lowerStr p) "kawaii".toList || strIncludes (lowerStr p) "cute".toList) = true →
      visualStyle p = "kawaii/cute style".toList) ∧
    ((strIncludes (lowerStr p) "cartoon".toList || strIncludes (lowerStr p) "anime".toList) = false →
      (strIncludes (lowerStr p) "3d".toList || strIncludes (lowerStr p) "render".toList) = false →
      (strIncludes (lowerStr p) "painting".toList || strIncludes (lowerStr p) "artistic".toList) = false →
      (strIncludes (lowerStr p) "kawaii".toList || strIncludes (lowerStr p) "cute".toList) = false →
      (strIncludes (lowerStr p) "fantasy".toList || strIncludes (lowerStr p) "magical".toList) = true →
      visualStyle p = "fantasy art".toList) ∧
    ((strIncludes (lowerStr p) "cartoon".toList || strIncludes (lowerStr p) "anime".toList) = false →
      (strIncludes (lowerStr p) "3d".toList || strIncludes (lowerStr p) "render".toList) = false →
      (strIncludes (lowerStr p) "painting".toList || strIncludes (lowerStr p) "artistic".toList) = false →
      (strIncludes (lowerStr p) "kawaii".toList || strIncludes (lowerStr p) "cute".toList) = false →
      (strIncludes (lowerStr p) "fantasy".toList || strIncludes (lowerStr p) "magical".toList) = false →
      (strIncludes (lowerStr p) "product".toList || strIncludes (lowerStr p) "mockup".toList) = true →
      visualStyle p = "product mockup".toList) ∧
    ((strIncludes (lowerStr p) "cartoon".toList || strIncludes (lowerStr p) "anime".toList) = false →
      (strIncludes (lowerStr p) "3d".toList || strIncludes (lowerStr p) "render".toList) = false →
      (strIncludes (lowerStr p) "painting".toList || strIncludes (lowerStr p) "artistic".toList) = false →
      (strIncludes (lowerStr p) "kawaii".toList || strIncludes (lowerStr p) "cute".toList) = false →
      (strIncludes (lowerStr p) "fantasy".toList || strIncludes (lowerStr p) "magical".toList) = false →
      (strIncludes (lowerStr p) "product".toList || strIncludes (lowerStr p) "mockup".toList) = false →
      visualStyle p = "photorealistic".toList) ∧
    strIncludes (lowerStr ("a cute anime girl".toList)) "anime".toList = true ∧
    strIncludes (lowerStr ("a cute anime girl".toList)) "cute".toList = true ∧
    visualStyle ("a cute anime girl".toList) = "anime/cartoon style".toList ∧
    strIncludes (buildStyledPrompt ("a cute anime girl".toList))
      "anime/cartoon style".toList = true ∧
    strIncludes (buildStyledPrompt ("a cute anime girl".toList))
      "kawaii/cute style".toList = false := by
  refine ⟨?_, ?_, ?_, ?_, ?_, ?_, ?_, by decide, by decide, by decide, by decide, by decide⟩
  · intro h1
    unfold visualStyle
    simp only [h1]
    simp
  · intro h1 h2
    unfold visualStyle
    simp only [h1, h2]
    simp
  · intro h1 h2 h3
    unfold visualStyle
    simp only [h1, h2, h3]
    simp
  · intro h1 h2 h3 h4
    unfold visualStyle
    simp only [h1, h2, h3, h4]
    simp
  · intro h1 h2 h3 h4 h5
    unfold visualStyle
    simp only [h1, h2, h3, h4, h5]
    simp
  · intro h1 h2 h3 h4 h5 h6
    unfold visualStyle
    simp only [h1, h2, h3, h4, h5, h6]
    simp
  · intro h1 h2 h3 h4 h5 h6
    unfold visualStyle
    simp only [h1, h2, h3, h4, h5, h6]
    simp

/-- C5 witness: the first conjunct applied to "a cute anime girl". -/
theorem buildStyledPrompt_priority_witness :
    visualStyle ("a cute anime girl".toList) = "anime/cartoon style".toList :=
  (buildStyledPrompt_priority ("a cute anime girl".toList)).1 (by decide)

/-- C6 counterexample: the claim "every prompt of at least 5 characters passes
this validation" fails: the 5-character prompt "a    " is rejected with 400,
because the handler measures the prompt after trimming whitespace. -/
theorem prompt_length5_rejected :
    ("a    ".toList).length = 5 ∧
    (generateImagePost true (PromptBody.str "a    ".toList)
        { providerOk := true, imageUrl := some [] }).status = 400 ∧
    (generateImagePost true (PromptBody.str "a    ".toList)
        { providerOk := true, imageUrl := some [] }).providerCalled = false := by
  decide

/-- C6 (amended): with the API key configured, a missing prompt, a non-string
prompt, and any string prompt whose whitespace-trimmed length is under 5
(which covers every prompt shorter than 5 characters) get HTTP 400 with no
provider call; every prompt whose trimmed length is at least 5 passes this
validation. -/
theorem prompt_validation (s : Str) (o : ImageOracle) :
    (generateImagePost true PromptBody.missing o).status = 400 ∧
    (generateImagePost true PromptBody.missing o).providerCalled = false ∧
    (generateImagePost true PromptBody.nonString o).status = 400 ∧
    (generateImagePost true PromptBody.nonString o).providerCalled = false ∧
    ((trimL s).length < 5 →
      (generateImagePost true (PromptBody.str s) o).status = 400 ∧
      (generateImagePost true (PromptBody.str s) o).providerCalled = false) ∧
    (5 ≤ (trimL s).length →
      (generateImagePost true (PromptBody.str s) o).status ≠ 400) := by
  refine ⟨rfl, rfl, rfl, rfl, ?_, ?_⟩
  · intro h
    unfold generateImagePost
    simp [h, imageError]
  · intro h
    have hse : s.isEmpty = false := by
      cases s with
      | nil => simp [trimL] at h
      | cons a as => rfl
    have hlt : ¬(trimL s).length < 5 := Nat.not_lt.mpr h
    unfold generateImagePost
    simp only [Bool.not_true, Bool.false_eq_true, if_false, hse, hlt, Bool.false_or,
      decide_eq_true_eq]
    split
    · simp
    · split
      · simp [imageError]
      · split <;> simp [imageError]

/-- C6 witness: "hello world" passes validation. -/
theorem prompt_validation_witness :
    (generateImagePost true (PromptBody.str "hello world".toList)
        { providerOk := true, imageUrl := some [] }).status ≠ 400 :=
  (prompt_validation "hello world".toList
    { providerOk := true, imageUrl := some [] }).2.2.2.2.2 (by decide)

/-- C7: every failure inside the chat route handler (unparseable JSON, a
throwing chat-completion call — e.g. a provider HTTP 500 — or a throwing
summary call) yields HTTP 500 whose body's `reply` field is the fixed
non-empty apology; the handler is a total function of its oracle (no
exception escapes), every response being either a 200 or that 500 apology. -/
theorem chatRoute_failure_apology (o : ChatOracle) :
    ((o.parseOk = false ∨ o.chatReply = Except.error () ∨ o.summary = Except.error ()) →
      maiyabotPost o = { status := 500, reply := chatApology } ∧ chatApology ≠ []) ∧
    ((maiyabotPost o).status = 200 ∨
      (maiyabotPost o).status = 500 ∧ (maiyabotPost o).reply = chatApology) := by
  rcases o with ⟨p, c, su⟩
  refine ⟨?_, ?_⟩
  · rintro (h | h | h) <;> subst h
    · exact ⟨rfl, by decide⟩
    · exact ⟨by cases p <;> rfl, by decide⟩
    · exact ⟨by cases p <;> cases c <;> rfl, by decide⟩
  · cases p
    · exact Or.inr ⟨rfl, rfl⟩
    · cases c with
      | error e => exact Or.inr ⟨rfl, rfl⟩
      | ok v =>
        cases su with
        | error e => exact Or.inr ⟨rfl, rfl⟩
        | ok w => exact Or.inl rfl

/-- C7 witness: a throwing chat-completion call. -/
theorem chatRoute_failure_apology_witness :
    maiyabotPost { parseOk := true, chatReply := Except.error (), summary := Except.ok [] } =
      { status := 500, reply := chatApology } ∧ chatApology ≠ [] :=
  (chatRoute_failure_apology
    { parseOk := true, chatReply := Except.error (), summary := Except.ok [] }).1
    (Or.inr (Or.inl rfl))

/-- C8 counterexample: in the `src/unnamed/part_002` variant, saving the empty
sequence is a no-op, so the immediately following load returns the previously
stored messages, not the (empty) sequence last passed to `saveHistory`. -/
theorem saveHistoryV2_empty_not_roundtrip :
    loadHistoryV2
        (saveHistoryV2 [((0, "2024-05-01".toList), [userMsg "hi".toList])]
          (some 0) "2024-05-01".toList [])
        0 "2024-05-01".toList = [userMsg "hi".toList] ∧
    [userMsg "hi".toList] ≠ ([] : List Msg) := by
  decide

/-- C8 (amended): `saveHistory` immediately followed by `loadHistory` on the
same key returns exactly the sequence last written, with overwrite (no merge)
semantics and last-writer-wins on repeated saves — unconditionally in the
`src/app/page.tsx` variant, and in the `src/unnamed/part_002` variant for
every nonempty sequence with an authenticated user (that variant ignores
saves of an empty list). -/
theorem saveHistory_roundtrip (st1 : ChatStore Str) (k : Str) (m1 m2 : List Msg)
    (st2 : ChatStore (Nat × Str)) (uid : Nat) (k2 : Str) (msgs : List Msg)
    (hne : msgs.isEmpty = false) :
    loadHistoryV1 (saveHistoryV1 st1 k m1) k = m1 ∧
    loadHistoryV1 (saveHistoryV1 (saveHistoryV1 st1 k m1) k m2) k = m2 ∧
    loadHistoryV2 (saveHistoryV2 st2 (some uid) k2 msgs) uid k2 = msgs := by
  refine ⟨?_, ?_, ?_⟩
  · simp [loadHistoryV1, saveHistoryV1, selectChat_upsertChat]
  · simp [loadHistoryV1, saveHistoryV1, selectChat_upsertChat]
  · simp [loadHistoryV2, saveHistoryV2, hne, selectChat_upsertChat]

/-- C8 witness: a nonempty save round-trips in the part_002 variant. -/
theorem saveHistory_roundtrip_witness :
    loadHistoryV2
        (saveHistoryV2 [] (some 1) "2024-05-01".toList [userMsg "yo".toList])
        1 "2024-05-01".toList = [userMsg "yo".toList] :=
  (saveHistory_roundtrip [] "k".toList [] [] [] 1 "2024-05-01".toList
    [userMsg "yo".toList] (by decide)).2.2

/-- C9: the image route only builds a styled prompt (and only calls the
provider) for prompts the fallback classifier rejects as false; and since the
word "style" is itself a layout keyword and survives lowercasing, every valid
prompt containing "style" is answered by the static fallback message with no
provider call and no styled prompt built. -/
theorem style_prompts_get_fallback (s t : Str) (o o2 : ImageOracle)
    (hstyle : strIncludes s "style".toList = true)
    (hvalid : 5 ≤ (trimL s).length) :
    needsVisualFallback s = true ∧
    generateImagePost true (PromptBody.str s) o =
      { status := 200, fallback := true, message := some imageFallbackMsg,
        imageUrl := none, errorMsg := none, providerCalled := false,
        styledPrompt := none } ∧
    ((generateImagePost true (PromptBody.str t) o2).styledPrompt.isSome = true →
      needsVisualFallback t = false) := by
  have hlow : strIncludes (lowerStr s) "style".toList = true :=
    strIncludes_lowerStr (by decide) hstyle
  have hnv : needsVisualFallback s = true := by
    unfold needsVisualFallback
    rw [List.any_eq_true]
    exact ⟨"style".toList, by decide, hlow⟩
  have hse : s.isEmpty = false := by
    cases s with
    | nil => simp [trimL] at hvalid
    | cons a as => rfl
  have hlt : ¬(trimL s).length < 5 := Nat.not_lt.mpr hvalid
  refine ⟨hnv, ?_, ?_⟩
  · unfold generateImagePost
    simp [hse, hlt, hnv]
  · intro hsome
    by_contra hft
    rw [Bool.not_eq_false] at hft
    unfold generateImagePost at hsome
    by_cases hte : t.isEmpty <;> by_cases htl : (trimL t).length < 5 <;>
      simp [hte, htl, hft, imageError] at hsome

/-- C9 witness: "in the style of monet". -/
theorem style_prompts_get_fallback_witness :
    needsVisualFallback "in the style of monet".toList = true ∧
    (generateImagePost true (PromptBody.str "in the style of monet".toList)
        { providerOk := true, imageUrl := some [] }).providerCalled = false := by
  have h := style_prompts_get_fallback "in the style of monet".toList "x".toList
    { providerOk := true, imageUrl := some [] } { providerOk := true, imageUrl := some [] }
    (by decide) (by decide)
  exact ⟨h.1, by rw [h.2.1]⟩

/-- C10: `sendMessage` on whitespace-only effective content returns before
appending any message, writing any history, or fetching any endpoint: the
state is unchanged and both effect lists are empty. -/
theorem sendMessage_whitespace_noop (st : ClientState) (content : Str)
    (o : NetOracle) (h : (trimL content).isEmpty = true) :
    sendMessage st content o = { state := st, saves := [], calls := [] } := by
  unfold sendMessage
  simp [h]

/-- C10 witness: three spaces. -/
theorem sendMessage_whitespace_noop_witness :
    sendMessage { messages := [], pending := false } "   ".toList
        { resOk := true, imageUrl := [], reply := [] } =
      { state := { messages := [], pending := false }, saves := [], calls := [] } :=
  sendMessage_whitespace_noop _ _ _ (by decide)

end Maiya
